import Mathlib

/-
Verification development for the `sai` upload service (src/main.py).

The service is a single FastAPI handler `upload_image` that validates an
uploaded file, persists it under ./uploads, calls a remote vision model
(`analyze_image`), forwards image and analysis to Telegram
(`send_image_and_analysis_to_telegram`) and removes the transient file.

Shallow embedding conventions:
  * the filesystem is a flat association list from path strings to byte lists;
    directories, permissions and write failures are not modelled;
  * the outside world (the inference HTTP call, the two Telegram sends, the
    wall clock) is an oracle passed to the handler; one run of the handler is
    a pure function of the upload, the initial filesystem and the oracle;
  * Python exceptions are values: a function that can raise returns an
    `Except` / an error component, and an exception that escapes the handler
    is the `Outcome.crash` result;
  * logging is not modelled (it has no effect the claims mention).
-/

/-- Byte values of a file (each entry intended < 256; base64 below uses the
    value mod 256 positions implicitly via division, inputs are plain bytes). -/
abbrev Bytes := List Nat

/-- Model of Python `os.path.basename`: the part of the string after the last
    slash (`p[p.rfind('/')+1:]`), written as a left fold that restarts at each
    separator. -/
def os_path_basename (p : String) : String :=
  String.mk (p.data.foldl (fun acc c => if c = '/' then [] else acc ++ [c]) [])

/-- Whether the first character of `s` is `c` (kernel-reducible substitute for
    a `startswith` on a one-character pattern). -/
def headIs (s : String) (c : Char) : Bool :=
  match s.data with
  | [] => false
  | x :: _ => x == c

/-- Whether the last character of `s` is `c`. -/
def lastIs (s : String) (c : Char) : Bool :=
  s.data.getLast? == some c

/-- Model of Python `os.path.join a b` for the two-argument case: an absolute
    second component replaces the first, otherwise the parts are joined with a
    single separator. -/
def os_path_join (a b : String) : String :=
  if headIs b '/' then b
  else if a = "" ∨ lastIs a '/' then a ++ b
  else a ++ "/" ++ b

/-- Index of the last occurrence of `c` in the list, if any. -/
def lastIdxOf (c : Char) : List Char → Option Nat
  | [] => none
  | x :: xs =>
    match lastIdxOf c xs with
    | some i => some (i + 1)
    | none => if x = c then some 0 else none

/-- Model of the extension part of Python `posixpath.splitext`, applied to the
    final path component: the suffix from the last dot, except that a run of
    leading dots never starts an extension. -/
def splitext_ext (b : String) : String :=
  match lastIdxOf '.' b.data with
  | none => ""
  | some i => if (b.data.take i).all (fun c => c = '.') then "" else String.mk (b.data.drop i)

/-- Fragment of the stdlib `mimetypes.types_map` table covering the extensions
    the development evaluates; keys are lower-case extensions with dot. -/
def types_map : List (String × String) :=
  [(".jpg", "image/jpeg"), (".jpeg", "image/jpeg"), (".jpe", "image/jpeg"),
   (".png", "image/png"), (".gif", "image/gif"), (".txt", "text/plain"),
   (".pdf", "application/pdf"), (".html", "text/html"), (".bin", "application/octet-stream")]

/-- Lower-casing of an ASCII letter (kernel-reducible substitute for
    `Char.toLower`, which suffices for extension strings). -/
def asciiLowerChar (c : Char) : Char :=
  if 65 ≤ c.toNat ∧ c.toNat ≤ 90 then Char.ofNat (c.toNat + 32) else c

/-- ASCII lower-casing of a string. -/
def asciiLower (s : String) : String :=
  String.mk (s.data.map asciiLowerChar)

/-- Model of Python `mimetypes.guess_type(path)[0]`: the type is looked up from
    the lower-cased extension of the final path component only; the bytes of
    the file are never read. -/
def mimetypes_guess_type (path : String) : Option String :=
  types_map.lookup (asciiLower (splitext_ext (os_path_basename path)))

/-- The standard base64 alphabet. -/
def b64alphabet : List Char :=
  "ABCDEFGHIJKLMNOPQRSTUVWXYZabcdefghijklmnopqrstuvwxyz0123456789+/".data

/-- Character of the base64 alphabet at index `n` (n < 64 in every use). -/
def b64char (n : Nat) : Char := b64alphabet.getD n 'A'

/-- Model of Python `base64.b64encode` on a byte list: groups of three bytes
    become four alphabet characters, with `=` padding for a short final group. -/
def b64encode : Bytes → List Char
  | [] => []
  | [a] => [b64char (a / 4), b64char (a % 4 * 16), '=', '=']
  | [a, b] => [b64char (a / 4), b64char (a % 4 * 16 + b / 16), b64char (b % 16 * 4), '=']
  | a :: b :: c :: rest =>
    b64char (a / 4) :: b64char (a % 4 * 16 + b / 16) :: b64char (b % 16 * 4 + c / 64) ::
      b64char (c % 64) :: b64encode rest

/-- `base64.b64encode(...).decode("utf-8")`. -/
def b64encodeStr (bs : Bytes) : String := String.mk (b64encode bs)

/-- Python exceptions the embedding distinguishes. -/
inductive PyExc where
  | fileNotFoundError
  | telegramError (msg : String)
  | networkError (msg : String)
deriving DecidableEq, Repr

/-- Flat filesystem: an association list from path to contents, with at most
    one live entry per path (writes and removals filter the key). -/
structure FS where
  files : List (String × Bytes)
deriving DecidableEq, Repr

/-- Contents at a path, `none` when no such file exists. -/
def FS.read (fs : FS) (p : String) : Option Bytes :=
  fs.files.lookup p

/-- Silent removal of a path (used to model another coroutine's cleanup). -/
def FS.erase (fs : FS) (p : String) : FS :=
  ⟨fs.files.filter (fun e => !(e.1 == p))⟩

/-- `open(p, "wb")` followed by a full write: creates or overwrites. -/
def FS.write (fs : FS) (p : String) (c : Bytes) : FS :=
  ⟨(p, c) :: (fs.erase p).files⟩

/-- Model of `os.remove`: deletes the file, raising `FileNotFoundError` when
    the path does not exist — there is no guard in the source. -/
def FS.remove (fs : FS) (p : String) : Except PyExc FS :=
  match fs.read p with
  | some _ => .ok (fs.erase p)
  | none => .error .fileNotFoundError

/-- The empty filesystem. -/
def FS.empty : FS := ⟨[]⟩

/-- Minimal JSON values, enough for the inference request body and response.
    `decimal m e` stands for the decimal literal m * 10^(-e) (the source writes
    the float literal 0.1, modelled exactly as `decimal 1 1`). -/
inductive Json where
  | null
  | bool (b : Bool)
  | num (n : Int)
  | decimal (m : Int) (e : Nat)
  | str (s : String)
  | arr (xs : List Json)
  | obj (fields : List (String × Json))

/-- Field lookup on a JSON object, `none` on any other shape (a Python
    subscript on the wrong shape raises, which the Analyzer's blanket
    `except` turns into `None`). -/
def Json.getField : Json → String → Option Json
  | .obj fields, k => fields.lookup k
  | _, _ => none

/-- Index lookup on a JSON array, `none` on any other shape. -/
def Json.getIdx : Json → Nat → Option Json
  | .arr xs, i => xs.get? i
  | _, _ => none

/-- String content of a JSON string; a non-string analysis content is
    treated as a parse failure by the embedding. -/
def Json.asString : Json → Option String
  | .str s => some s
  | _ => none

/-- The Python expression `result["choices"][0]["message"]["content"]`;
    `none` models the KeyError / IndexError / TypeError path. -/
def extractContent (j : Json) : Option String :=
  (j.getField "choices").bind fun cs =>
    (cs.getIdx 0).bind fun c0 =>
      (c0.getField "message").bind fun m =>
        (m.getField "content").bind Json.asString

/-- Environment configuration read at process start (the process has already
    fast-failed when any of these is absent, so they are plain strings here). -/
structure Config where
  TELEGRAM_CHAT_ID : String
  GROQ_API_URL : String
  GROQ_API_KEY : String

/-- The multi-line prompt literal `_prompt_` of the source, verbatim. -/
def _prompt_ : String :=
  "\n\x7b\n  \"input\": \"Image captured by camera.\",\n  \"task\": \"Analyze the image looking for birds.\",\n  \"output_format\": \x7b\n    \"detected\": \"boolean\",\n    \"description\": \"string (brief description if birds detected)\"\n  \x7d,\n  \"instructions\": \"Do you see little birds standing on the trees?\",\n  \"example_output_1\": \x7b\n    \"detected\": \"yes\",\n    \"description\": \"two little birds stands side by side on the tree.\"\n  \x7d,\n  \"example_output_2\": \x7b\n    \"detected\": \"yes\",\n    \"description\": \"a flying bird is flying away from the tree.\"\n  \x7d,\n  \"example_output_3\": \x7b\n    \"detected\": \"no\",\n    \"description\": \"no sign of birds on the trees.\"\n  \x7d\n\x7d\n"

/-- One outbound HTTP request of the Analyzer, as built at main.py:143-156. -/
structure GroqRequest where
  url : String
  timeoutSeconds : Nat
  body : Json
  headers : List (String × String)

/-- The `messages` array of the request: a single user message holding the
    text prompt and the image as a base64 data URI. -/
def groqMessages (prompt encoded_image : String) : Json :=
  .arr [.obj [("role", .str "user"),
              ("content", .arr
                [.obj [("type", .str "text"), ("text", .str prompt)],
                 .obj [("type", .str "image_url"),
                       ("image_url", .obj
                         [("url", .str ("data:image/jpeg;base64," ++ encoded_image))])]])]]

/-- The complete request `analyze_image` posts for a given prompt and image. -/
def buildGroqRequest (cfg : Config) (prompt : String) (image_content : Bytes) : GroqRequest :=
  { url := cfg.GROQ_API_URL
    timeoutSeconds := 30
    body := .obj [("model", .str "llama-3.2-11b-vision-preview"),
                  ("messages", groqMessages prompt (b64encodeStr image_content)),
                  ("temperature", .decimal 1 1),
                  ("max_tokens", .num 1000)]
    headers := [("Authorization", "Bearer " ++ cfg.GROQ_API_KEY),
                ("Content-Type", "application/json")] }

/-- Oracle for the inference call: either httpx raises (timeout, connection
    failure), or a response arrives with a status code and — when
    `response.json()` parses — a JSON body. -/
inductive GroqResult where
  | netError (msg : String)
  | httpResponse (status : Nat) (body : Option Json)

/-- `analyze_image` of main.py:121-170, also exposing the list of requests it
    sent. Reading a missing file raises inside the `try`, which the blanket
    `except` turns into `None` with no request sent. -/
def analyze_image_run (cfg : Config) (fs : FS) (image_path prompt : String)
    (o : GroqResult) : List GroqRequest × Option String :=
  match fs.read image_path with
  | none => ([], none)
  | some image_content =>
    let req := buildGroqRequest cfg prompt image_content
    match o with
    | .netError _ => ([req], none)
    | .httpResponse status body =>
      if status = 200 then
        match body with
        | none => ([req], none)
        | some j =>
          match extractContent j with
          | none => ([req], none)
          | some answer => ([req], some answer)
      else ([req], none)

/-- The value `analyze_image` returns to the handler. -/
def analyze_image (cfg : Config) (fs : FS) (image_path prompt : String)
    (o : GroqResult) : Option String :=
  (analyze_image_run cfg fs image_path prompt o).2

/-- A wall-clock reading, the input of `datetime.datetime.now()`. -/
structure DateTime where
  year : Nat
  month : Nat
  day : Nat
  hour : Nat
  minute : Nat
  second : Nat

/-- Two-digit zero padding, as the strftime numeric fields use. -/
def pad2 (n : Nat) : String :=
  if n < 10 then "0" ++ toString n else toString n

/-- Four-digit zero padding for the year field. -/
def pad4 (n : Nat) : String :=
  if n < 10 then "000" ++ toString n
  else if n < 100 then "00" ++ toString n
  else if n < 1000 then "0" ++ toString n
  else toString n

/-- `now.strftime("%Y-%m-%d %H:%M:%S")` on a clock reading. -/
def strftime_YmdHMS (t : DateTime) : String :=
  pad4 t.year ++ "-" ++ pad2 t.month ++ "-" ++ pad2 t.day ++ " " ++
    pad2 t.hour ++ ":" ++ pad2 t.minute ++ ":" ++ pad2 t.second

/-- One message handed to the Telegram client. -/
inductive TgAction where
  | sendPhoto (chat_id : String) (photo : Bytes) (caption : String)
  | sendMessage (chat_id : String) (text : String)
deriving DecidableEq, Repr

/-- Oracle for the two Telegram sends: `none` means the send succeeds,
    `some e` means the client raises `e` during that send. -/
structure TgOracle where
  photoResult : Option PyExc
  messageResult : Option PyExc

/-- `send_image_and_analysis_to_telegram` of main.py:174-196: the timestamp is
    computed, the photo is sent with it as caption, then the analysis text is
    sent; the `except (TelegramError, NetworkError)` clause re-raises, and a
    `FileNotFoundError` from `open` propagates uncaught, so every exception
    reaches the caller (second component `some e`). The first component lists
    the send attempts in order. -/
def send_image_and_analysis_to_telegram (cfg : Config) (fs : FS) (now : DateTime)
    (image_path analysis_result : String) (o : TgOracle) :
    List TgAction × Option PyExc :=
  let timestamp := strftime_YmdHMS now
  match fs.read image_path with
  | none => ([], some .fileNotFoundError)
  | some photo =>
    match o.photoResult with
    | some e => ([.sendPhoto cfg.TELEGRAM_CHAT_ID photo timestamp], some e)
    | none =>
      match o.messageResult with
      | some e => ([.sendPhoto cfg.TELEGRAM_CHAT_ID photo timestamp,
                    .sendMessage cfg.TELEGRAM_CHAT_ID analysis_result], some e)
      | none => ([.sendPhoto cfg.TELEGRAM_CHAT_ID photo timestamp,
                  .sendMessage cfg.TELEGRAM_CHAT_ID analysis_result], none)

/-- The uploaded multipart file: declared content type, client-supplied
    filename, and the byte stream `await image.read()` yields. -/
structure UploadFile where
  filename : String
  content_type : String
  content : Bytes
deriving DecidableEq, Repr

/-- `ALLOWED_MIME_TYPES = {'image/jpeg'}`. -/
def ALLOWED_MIME_TYPES : List String := ["image/jpeg"]

/-- `UPLOAD_FOLDER = './uploads'`. -/
def UPLOAD_FOLDER : String := "./uploads"

/-- Membership test a Python `x in ALLOWED_MIME_TYPES` performs on the result
    of `mimetypes.guess_type`, whose first component may be `None`. -/
def allowedMime : Option String → Bool
  | some m => ALLOWED_MIME_TYPES.contains m
  | none => false

/-- Python truthiness of the Analyzer's return value: `None` and the empty
    string are falsy (`if not analysis_result`). -/
def pyTruthy : Option String → Bool
  | none => false
  | some s => !(s == "")

/-- What the handler run produced: an HTTP response (a success body or an
    `HTTPException` turned into a status and detail string by FastAPI), or an
    exception that escaped the handler uncaught. -/
inductive Outcome where
  | response (status : Nat) (body : String)
  | crash (e : PyExc)
deriving DecidableEq, Repr

/-- Filesystem events of one run, in order. -/
inductive FsEvent where
  | created (path : String)
  | removed (path : String)
deriving DecidableEq, Repr

/-- The whole outside world of one request: the inference call's result, the
    two Telegram sends, the clock, and — modelling the §5 filename race of the
    spec — whether another coroutine holding the same path removes the file
    while this request awaits the Telegram sends. -/
structure Oracle where
  groq : GroqResult
  tg : TgOracle
  now : DateTime
  concurrentRemoval : Bool

/-- The path `upload_image` stores the upload at:
    `os.path.join(UPLOAD_FOLDER, os.path.basename(image.filename))`. -/
def uploadPath (image : UploadFile) : String :=
  os_path_join UPLOAD_FOLDER (os_path_basename image.filename)

/-- The handler `upload_image` of main.py:72-119, one request as a pure
    function of upload, initial filesystem and oracle. Returns the outcome,
    the final filesystem, and the ordered file events. Each `os.remove` is a
    bare `FS.remove`; an error it returns escapes the handler (every
    `raise HTTPException` in the source happens only after a successful
    remove, and no remove is wrapped in a try). -/
def upload_image (cfg : Config) (fs0 : FS) (image : UploadFile) (o : Oracle) :
    Outcome × FS × List FsEvent :=
  let content_type := image.content_type
  if ALLOWED_MIME_TYPES.contains content_type then
    let filename := os_path_basename image.filename
    let filepath := os_path_join UPLOAD_FOLDER filename
    let fs1 := fs0.write filepath image.content
    let mime_type := mimetypes_guess_type filepath
    if allowedMime mime_type then
      let analysis_result := analyze_image cfg fs1 filepath _prompt_ o.groq
      if pyTruthy analysis_result then
        let analysis := analysis_result.getD ""
        let sent := send_image_and_analysis_to_telegram cfg fs1 o.now filepath analysis o.tg
        let fs2 := if o.concurrentRemoval then fs1.erase filepath else fs1
        match sent.2 with
        | some _ =>
          match fs2.remove filepath with
          | .error e2 => (.crash e2, fs2, [.created filepath])
          | .ok fs3 =>
            (.response 500 "Failed to send image to Telegram", fs3,
             [.created filepath, .removed filepath])
        | none =>
          match fs2.remove filepath with
          | .error e2 => (.crash e2, fs2, [.created filepath])
          | .ok fs3 =>
            (.response 200 "Image received, analyzed, and forwarded to Telegram", fs3,
             [.created filepath, .removed filepath])
      else
        match fs1.remove filepath with
        | .error e2 => (.crash e2, fs1, [.created filepath])
        | .ok fs2 =>
          (.response 500 "Failed to analyze the image", fs2,
           [.created filepath, .removed filepath])
    else
      match fs1.remove filepath with
      | .error e2 => (.crash e2, fs1, [.created filepath])
      | .ok fs2 =>
        (.response 400 "Invalid image content", fs2,
         [.created filepath, .removed filepath])
  else
    (.response 400 "Invalid file format, only JPEG images are accepted", fs0, [])

/-- Number of `removed p` events in a run's event list. -/
def countRemoved (evs : List FsEvent) (p : String) : Nat :=
  (evs.filter (fun e => e == FsEvent.removed p)).length

/-- The failure modes of the inference call the spec collapses into absence:
    a raised network error, a non-200 status, an unparseable body, or a body
    from which `choices[0].message.content` cannot be extracted. -/
def groqCallFails : GroqResult → Prop
  | .netError _ => True
  | .httpResponse status body =>
      status ≠ 200 ∨ body = none ∨ ∃ j, body = some j ∧ extractContent j = none

/-- Example configuration used by concrete evaluations. -/
def cfgEx : Config :=
  { TELEGRAM_CHAT_ID := "424242"
    GROQ_API_URL := "https://api.example.org/openai/v1/chat/completions"
    GROQ_API_KEY := "gsk-test-key" }

/-- A well-formed inference response body with a non-empty answer. -/
def goodBody : Json :=
  .obj [("choices", .arr
    [.obj [("message", .obj [("content", .str "no sign of birds on the trees.")])]])]

/-- A well-formed inference response body whose answer is the empty string. -/
def emptyBody : Json :=
  .obj [("choices", .arr [.obj [("message", .obj [("content", .str "")])]])]

/-- A fixed clock reading. -/
def nowEx : DateTime :=
  { year := 2026, month := 10, day := 12, hour := 8, minute := 30, second := 5 }

/-- Oracle for a fully successful run. -/
def oGood : Oracle :=
  { groq := .httpResponse 200 (some goodBody)
    tg := { photoResult := none, messageResult := none }
    now := nowEx
    concurrentRemoval := false }

/-- Oracle identical to `oGood` except that another coroutine removes the
    stored path during the Telegram sends (the §5 filename race). -/
def oRace : Oracle :=
  { groq := .httpResponse 200 (some goodBody)
    tg := { photoResult := none, messageResult := none }
    now := nowEx
    concurrentRemoval := true }

/-- Oracle whose inference call raises a network timeout. -/
def oNetFail : Oracle :=
  { groq := .netError "timeout"
    tg := { photoResult := none, messageResult := none }
    now := nowEx
    concurrentRemoval := false }

/-- Oracle whose first Telegram send raises a transport error. -/
def oTgFail : Oracle :=
  { groq := .httpResponse 200 (some goodBody)
    tg := { photoResult := some (.telegramError "flood control"), messageResult := none }
    now := nowEx
    concurrentRemoval := false }

/-- Oracle whose inference call yields 200 with an empty answer. -/
def oEmptyAnswer : Oracle :=
  { groq := .httpResponse 200 (some emptyBody)
    tg := { photoResult := none, messageResult := none }
    now := nowEx
    concurrentRemoval := false }

/-- A genuine JPEG-looking upload. -/
def imgGood : UploadFile :=
  { filename := "photo.jpg", content_type := "image/jpeg"
    content := [255, 216, 255, 224, 0, 16, 74, 70, 73, 70] }

/-- The spec's `fake.jpg`: declared `image/jpeg`, but the stored bytes are the
    ASCII text "hello", not a JPEG. -/
def fakeJpg : UploadFile :=
  { filename := "fake.jpg", content_type := "image/jpeg"
    content := [104, 101, 108, 108, 111] }

/-- The spec's `doc.pdf`: declared `application/pdf`. -/
def pdfUpload : UploadFile :=
  { filename := "doc.pdf", content_type := "application/pdf"
    content := [37, 80, 68, 70] }

/-- Declared `image/jpeg` but named with a `.txt` extension. -/
def txtUpload : UploadFile :=
  { filename := "doc.txt", content_type := "image/jpeg"
    content := [104, 105] }

/-- An upload whose client filename carries path-traversal segments. -/
def traversalUpload : UploadFile :=
  { filename := "../../etc/passwd.jpg", content_type := "image/jpeg"
    content := [255, 216, 255] }

theorem lookup_filter_ne (p : String) (l : List (String × Bytes)) :
    (l.filter (fun e => !(e.1 == p))).lookup p = none := by
  induction l with
  | nil => rfl
  | cons hd tl ih =>
    rcases hd with ⟨k, v⟩
    by_cases h : k = p
    · subst h
      simpa using ih
    · have hk : (k == p) = false := beq_false_of_ne h
      have hp : (p == k) = false := beq_false_of_ne (Ne.symm h)
      simp [List.filter_cons, hk, List.lookup, hp, ih]

theorem FS.read_write_self (fs : FS) (p : String) (c : Bytes) :
    (fs.write p c).read p = some c := by
  simp [FS.write, FS.read, List.lookup]

theorem FS.read_erase_self (fs : FS) (p : String) :
    (fs.erase p).read p = none := by
  simp [FS.erase, FS.read, lookup_filter_ne]

theorem FS.erase_write_self (fs : FS) (p : String) (c : Bytes) :
    (fs.write p c).erase p = fs.erase p := by
  simp [FS.write, FS.erase, List.filter_filter]

theorem FS.remove_write_self (fs : FS) (p : String) (c : Bytes) :
    (fs.write p c).remove p = .ok (fs.erase p) := by
  simp [FS.remove, FS.read_write_self, FS.erase_write_self]

theorem FS.remove_erase_self (fs : FS) (p : String) :
    (fs.erase p).remove p = .error .fileNotFoundError := by
  simp [FS.remove, FS.read_erase_self]

theorem contains_jpeg : ALLOWED_MIME_TYPES.contains "image/jpeg" = true := rfl

theorem upload_image_mime_fail (cfg : Config) (fs : FS) (image : UploadFile) (o : Oracle)
    (hct : image.content_type = "image/jpeg")
    (hmime : allowedMime (mimetypes_guess_type (uploadPath image)) = false) :
    upload_image cfg fs image o =
      (.response 400 "Invalid image content", fs.erase (uploadPath image),
       [.created (uploadPath image), .removed (uploadPath image)]) := by
  simp only [uploadPath] at hmime
  simp only [upload_image, hct, contains_jpeg, if_true, hmime, Bool.false_eq_true, if_false,
    FS.remove_write_self, uploadPath]

theorem send_run_success (cfg : Config) (fs : FS) (now : DateTime) (path a : String)
    (o : TgOracle) (photo : Bytes) (hread : fs.read path = some photo)
    (hp : o.photoResult = none) (hm : o.messageResult = none) :
    send_image_and_analysis_to_telegram cfg fs now path a o =
      ([.sendPhoto cfg.TELEGRAM_CHAT_ID photo (strftime_YmdHMS now),
        .sendMessage cfg.TELEGRAM_CHAT_ID a], none) := by
  simp [send_image_and_analysis_to_telegram, hread, hp, hm]

theorem send_run_photo_fail (cfg : Config) (fs : FS) (now : DateTime) (path a : String)
    (o : TgOracle) (photo : Bytes) (e : PyExc) (hread : fs.read path = some photo)
    (hp : o.photoResult = some e) :
    send_image_and_analysis_to_telegram cfg fs now path a o =
      ([.sendPhoto cfg.TELEGRAM_CHAT_ID photo (strftime_YmdHMS now)], some e) := by
  simp [send_image_and_analysis_to_telegram, hread, hp]

theorem send_run_message_fail (cfg : Config) (fs : FS) (now : DateTime) (path a : String)
    (o : TgOracle) (photo : Bytes) (e : PyExc) (hread : fs.read path = some photo)
    (hp : o.photoResult = none) (hm : o.messageResult = some e) :
    send_image_and_analysis_to_telegram cfg fs now path a o =
      ([.sendPhoto cfg.TELEGRAM_CHAT_ID photo (strftime_YmdHMS now),
        .sendMessage cfg.TELEGRAM_CHAT_ID a], some e) := by
  simp [send_image_and_analysis_to_telegram, hread, hp, hm]

theorem send_snd_of_fail (cfg : Config) (fs : FS) (now : DateTime) (path a : String)
    (o : TgOracle) (photo : Bytes) (e : PyExc) (hread : fs.read path = some photo)
    (htg : o.photoResult = some e ∨ (o.photoResult = none ∧ o.messageResult = some e)) :
    (send_image_and_analysis_to_telegram cfg fs now path a o).2 = some e := by
  rcases htg with hp | ⟨hp, hm⟩
  · rw [send_run_photo_fail cfg fs now path a o photo e hread hp]
  · rw [send_run_message_fail cfg fs now path a o photo e hread hp hm]

theorem upload_image_analysis_fail (cfg : Config) (fs : FS) (image : UploadFile) (o : Oracle)
    (hct : image.content_type = "image/jpeg")
    (hmime : allowedMime (mimetypes_guess_type (uploadPath image)) = true)
    (hfail : pyTruthy (analyze_image cfg (fs.write (uploadPath image) image.content)
      (uploadPath image) _prompt_ o.groq) = false) :
    upload_image cfg fs image o =
      (.response 500 "Failed to analyze the image", fs.erase (uploadPath image),
       [.created (uploadPath image), .removed (uploadPath image)]) := by
  simp only [uploadPath] at hmime hfail
  simp only [upload_image, hct, contains_jpeg, if_true, hmime, hfail, Bool.false_eq_true,
    if_false, FS.remove_write_self, uploadPath]

theorem upload_image_tg_fail (cfg : Config) (fs : FS) (image : UploadFile) (o : Oracle) (e : PyExc)
    (hct : image.content_type = "image/jpeg")
    (hmime : allowedMime (mimetypes_guess_type (uploadPath image)) = true)
    (htruthy : pyTruthy (analyze_image cfg (fs.write (uploadPath image) image.content)
      (uploadPath image) _prompt_ o.groq) = true)
    (hrace : o.concurrentRemoval = false)
    (htg : o.tg.photoResult = some e ∨ (o.tg.photoResult = none ∧ o.tg.messageResult = some e)) :
    upload_image cfg fs image o =
      (.response 500 "Failed to send image to Telegram", fs.erase (uploadPath image),
       [.created (uploadPath image), .removed (uploadPath image)]) := by
  have hsnd := send_snd_of_fail cfg (fs.write (uploadPath image) image.content) o.now
    (uploadPath image)
    ((analyze_image cfg (fs.write (uploadPath image) image.content) (uploadPath image) _prompt_
      o.groq).getD "") o.tg image.content e
    (FS.read_write_self fs (uploadPath image) image.content) htg
  simp only [uploadPath] at hmime htruthy hsnd
  simp only [upload_image, hct, contains_jpeg, if_true, hmime, htruthy, hrace, if_true,
    Bool.false_eq_true, if_false, hsnd, FS.remove_write_self, uploadPath]

theorem upload_image_success (cfg : Config) (fs : FS) (image : UploadFile) (o : Oracle)
    (hct : image.content_type = "image/jpeg")
    (hmime : allowedMime (mimetypes_guess_type (uploadPath image)) = true)
    (htruthy : pyTruthy (analyze_image cfg (fs.write (uploadPath image) image.content)
      (uploadPath image) _prompt_ o.groq) = true)
    (hrace : o.concurrentRemoval = false)
    (hp : o.tg.photoResult = none) (hm : o.tg.messageResult = none) :
    upload_image cfg fs image o =
      (.response 200 "Image received, analyzed, and forwarded to Telegram",
       fs.erase (uploadPath image),
       [.created (uploadPath image), .removed (uploadPath image)]) := by
  have hsnd := send_run_success cfg (fs.write (uploadPath image) image.content) o.now
    (uploadPath image)
    ((analyze_image cfg (fs.write (uploadPath image) image.content) (uploadPath image) _prompt_
      o.groq).getD "") o.tg image.content
    (FS.read_write_self fs (uploadPath image) image.content) hp hm
  simp only [uploadPath] at hmime htruthy hsnd
  simp only [upload_image, hct, contains_jpeg, if_true, hmime, htruthy, hrace, if_true,
    Bool.false_eq_true, if_false, hsnd, FS.remove_write_self, uploadPath]

theorem upload_image_race_crash (cfg : Config) (fs : FS) (image : UploadFile) (o : Oracle)
    (hct : image.content_type = "image/jpeg")
    (hmime : allowedMime (mimetypes_guess_type (uploadPath image)) = true)
    (htruthy : pyTruthy (analyze_image cfg (fs.write (uploadPath image) image.content)
      (uploadPath image) _prompt_ o.groq) = true)
    (hrace : o.concurrentRemoval = true) :
    upload_image cfg fs image o =
      (.crash .fileNotFoundError, fs.erase (uploadPath image), [.created (uploadPath image)]) := by
  simp only [uploadPath] at hmime htruthy
  simp only [upload_image, hct, contains_jpeg, if_true, hmime, htruthy, hrace, if_true,
    FS.erase_write_self, FS.remove_erase_self, uploadPath]
  cases (send_image_and_analysis_to_telegram cfg
    (fs.write (os_path_join UPLOAD_FOLDER (os_path_basename image.filename)) image.content) o.now
    (os_path_join UPLOAD_FOLDER (os_path_basename image.filename))
    ((analyze_image cfg (fs.write (os_path_join UPLOAD_FOLDER (os_path_basename image.filename))
      image.content) (os_path_join UPLOAD_FOLDER (os_path_basename image.filename)) _prompt_
      o.groq).getD "") o.tg).2 <;> rfl

theorem countRemoved_pair (p : String) :
    countRemoved [FsEvent.created p, FsEvent.removed p] p = 1 := by
  have h1 : (FsEvent.created p == FsEvent.removed p) = false :=
    beq_false_of_ne (fun h => FsEvent.noConfusion h)
  simp [countRemoved, List.filter, h1]

theorem analyze_image_none_of_fail (cfg : Config) (fs : FS) (path prompt : String)
    (r : GroqResult) (hfail : groqCallFails r) :
    analyze_image cfg fs path prompt r = none := by
  simp only [analyze_image, analyze_image_run]
  cases hread : fs.read path with
  | none => rfl
  | some c =>
    cases r with
    | netError m => rfl
    | httpResponse status body =>
      rcases hfail with hs | hb | ⟨j, hj, hext⟩
      · simp [hs]
      · subst hb
        by_cases h200 : status = 200 <;> simp [h200]
      · subst hj
        by_cases h200 : status = 200 <;> simp [h200, hext]

theorem upload_events_head (cfg : Config) (fs : FS) (image : UploadFile) (o : Oracle)
    (hct : image.content_type = "image/jpeg") :
    ∃ evs, (upload_image cfg fs image o).2.2 =
      FsEvent.created (uploadPath image) :: evs := by
  simp only [upload_image, hct, contains_jpeg, if_true, uploadPath]
  repeat' split
  all_goals exact ⟨_, rfl⟩

theorem os_path_basename_append (d f : String) :
    os_path_basename (d ++ "/" ++ f) = os_path_basename f := by
  show String.mk _ = String.mk _
  congr 1
  have h1 : (d ++ "/" ++ f).data = (d.data ++ ['/']) ++ f.data := rfl
  rw [h1, List.foldl_append, List.foldl_append]
  simp
/-- C1: for every request in which the transient file is created (the declared
    content-type check passes and the file is written), and absent the §5
    concurrent-removal race, the run ends in an HTTP response (no crash), the
    stored path is removed exactly once, and the final filesystem no longer
    contains it — on the content-mismatch, analysis-failure and
    delivery-failure aborts as well as on full success. -/
theorem sai_C1_transient_file_deleted_exactly_once (cfg : Config) (fs : FS) (image : UploadFile)
    (o : Oracle) (hct : image.content_type = "image/jpeg")
    (hrace : o.concurrentRemoval = false) :
    (∃ s b, (upload_image cfg fs image o).1 = Outcome.response s b) ∧
    countRemoved (upload_image cfg fs image o).2.2 (uploadPath image) = 1 ∧
    ((upload_image cfg fs image o).2.1).read (uploadPath image) = none := by
  by_cases hmime : allowedMime (mimetypes_guess_type (uploadPath image)) = true
  · by_cases hana : pyTruthy (analyze_image cfg (fs.write (uploadPath image) image.content)
      (uploadPath image) _prompt_ o.groq) = true
    · cases hp : o.tg.photoResult with
      | some e =>
        rw [upload_image_tg_fail cfg fs image o e hct hmime hana hrace (Or.inl hp)]
        exact ⟨⟨500, _, rfl⟩, countRemoved_pair _, FS.read_erase_self fs _⟩
      | none =>
        cases hm : o.tg.messageResult with
        | some e =>
          rw [upload_image_tg_fail cfg fs image o e hct hmime hana hrace (Or.inr ⟨hp, hm⟩)]
          exact ⟨⟨500, _, rfl⟩, countRemoved_pair _, FS.read_erase_self fs _⟩
        | none =>
          rw [upload_image_success cfg fs image o hct hmime hana hrace hp hm]
          exact ⟨⟨200, _, rfl⟩, countRemoved_pair _, FS.read_erase_self fs _⟩
    · have hana' : pyTruthy (analyze_image cfg (fs.write (uploadPath image) image.content)
        (uploadPath image) _prompt_ o.groq) = false := by simpa using hana
      rw [upload_image_analysis_fail cfg fs image o hct hmime hana']
      exact ⟨⟨500, _, rfl⟩, countRemoved_pair _, FS.read_erase_self fs _⟩
  · have hmime' : allowedMime (mimetypes_guess_type (uploadPath image)) = false := by
      simpa using hmime
    rw [upload_image_mime_fail cfg fs image o hct hmime']
    exact ⟨⟨400, _, rfl⟩, countRemoved_pair _, FS.read_erase_self fs _⟩

/-- Witness for C1 at a fully successful concrete run. -/
theorem sai_C1_witness :
    (∃ s b, (upload_image cfgEx FS.empty imgGood oGood).1 = Outcome.response s b) ∧
    countRemoved (upload_image cfgEx FS.empty imgGood oGood).2.2 (uploadPath imgGood) = 1 ∧
    ((upload_image cfgEx FS.empty imgGood oGood).2.1).read (uploadPath imgGood) = none :=
  sai_C1_transient_file_deleted_exactly_once cfgEx FS.empty imgGood oGood rfl rfl
/-- C2 counterexample: `fake.jpg` declared `image/jpeg` with text bytes
    ("hello") is NOT rejected by the post-persist check — the run continues to
    analysis and delivery and answers 200, because `mimetypes.guess_type` looks
    only at the `.jpg` extension, never at the stored bytes. -/
theorem sai_C2_cex_fake_jpg_passes_content_check :
    upload_image cfgEx FS.empty fakeJpg oGood =
      (.response 200 "Image received, analyzed, and forwarded to Telegram", FS.empty,
       [.created "./uploads/fake.jpg", .removed "./uploads/fake.jpg"]) ∧
    (upload_image cfgEx FS.empty fakeJpg oGood).1 ≠
      Outcome.response 400 "Invalid image content" := by
  constructor <;> decide

/-- C2 (amended): the post-persist re-inspection is extension-based, not
    byte-based: it resolves `mimetypes.guess_type` on the stored path, and
    exactly when that extension-derived type is not `image/jpeg` the handler
    deletes the file and responds 400 (InvalidContent). A file whose name
    ends in `.jpg` passes regardless of its bytes. -/
theorem sai_C2_extension_based_content_check (cfg : Config) (fs : FS) (image : UploadFile)
    (o : Oracle) (hct : image.content_type = "image/jpeg")
    (hmime : allowedMime (mimetypes_guess_type (uploadPath image)) = false) :
    upload_image cfg fs image o =
      (.response 400 "Invalid image content", fs.erase (uploadPath image),
       [.created (uploadPath image), .removed (uploadPath image)]) :=
  upload_image_mime_fail cfg fs image o hct hmime

/-- Witness for C2 (amended): declared `image/jpeg` but named `doc.txt` — the
    extension resolves to `text/plain`, so the file is removed and 400 returned. -/
theorem sai_C2_witness :
    upload_image cfgEx FS.empty txtUpload oGood =
      (.response 400 "Invalid image content", FS.empty.erase (uploadPath txtUpload),
       [.created (uploadPath txtUpload), .removed (uploadPath txtUpload)]) :=
  sai_C2_extension_based_content_check cfgEx FS.empty txtUpload oGood rfl (by decide)

/-- C3 counterexample: a run in which the file has already been removed when
    cleanup executes (another coroutine sharing the path removed it during the
    Telegram awaits) crashes the handler with an uncaught FileNotFoundError
    instead of returning a response — the double delete is not guarded. -/
theorem sai_C3_cex_unguarded_double_delete_crashes :
    (upload_image cfgEx FS.empty imgGood oRace).1 = Outcome.crash PyExc.fileNotFoundError := by
  decide

/-- C3 (amended): cleanup is NOT idempotent. Every removal is a bare
    `os.remove` with no existence check or exception handler: removing an
    already-removed path raises `FileNotFoundError`, and when the stored file
    has already been removed by the time the handler's cleanup runs (the §5
    same-filename race), that exception escapes the handler uncaught. In a
    single-request sequential run each path removes the file exactly once
    while it still exists, so no double delete occurs there (see C1). -/
theorem sai_C3_cleanup_not_guarded (cfg : Config) (fs : FS) (image : UploadFile) (o : Oracle)
    (hct : image.content_type = "image/jpeg")
    (hmime : allowedMime (mimetypes_guess_type (uploadPath image)) = true)
    (htruthy : pyTruthy (analyze_image cfg (fs.write (uploadPath image) image.content)
      (uploadPath image) _prompt_ o.groq) = true)
    (hrace : o.concurrentRemoval = true) :
    (∀ (fs' : FS) (p : String), fs'.read p = none →
      fs'.remove p = .error PyExc.fileNotFoundError) ∧
    (upload_image cfg fs image o).1 = Outcome.crash PyExc.fileNotFoundError := by
  refine ⟨fun fs' p h => by simp [FS.remove, h], ?_⟩
  rw [upload_image_race_crash cfg fs image o hct hmime htruthy hrace]

/-- Witness for C3 (amended) at the concrete racing run. -/
theorem sai_C3_witness :
    (∀ (fs' : FS) (p : String), fs'.read p = none →
      fs'.remove p = .error PyExc.fileNotFoundError) ∧
    (upload_image cfgEx FS.empty imgGood oRace).1 = Outcome.crash PyExc.fileNotFoundError :=
  sai_C3_cleanup_not_guarded cfgEx FS.empty imgGood oRace rfl (by decide) (by decide) rfl

/-- C4: an upload whose declared content type is not `image/jpeg` is answered
    400 (InvalidFormat) with the filesystem untouched and no file event at
    all — the rejection happens before any disk write. -/
theorem sai_C4_invalid_format_rejected_before_write (cfg : Config) (fs : FS)
    (image : UploadFile) (o : Oracle) (h : image.content_type ≠ "image/jpeg") :
    upload_image cfg fs image o =
      (.response 400 "Invalid file format, only JPEG images are accepted", fs, []) := by
  have hc : ALLOWED_MIME_TYPES.contains image.content_type = false := by
    simp [ALLOWED_MIME_TYPES, List.contains, h]
  simp only [upload_image, hc, Bool.false_eq_true, if_false]

/-- Witness for C4: `doc.pdf` declared `application/pdf`. -/
theorem sai_C4_witness :
    upload_image cfgEx FS.empty pdfUpload oGood =
      (.response 400 "Invalid file format, only JPEG images are accepted", FS.empty, []) :=
  sai_C4_invalid_format_rejected_before_write cfgEx FS.empty pdfUpload oGood (by decide)
/-- C5: whenever the inference call fails — network error raised by the HTTP
    client, non-200 status, unparseable body, or a body without
    choices[0].message.content — `analyze_image` returns the absence value
    `none` (its blanket `except` lets no exception past it), and the handler
    then removes the stored file and responds 500. -/
theorem sai_C5_analyzer_failure_maps_to_500 (cfg : Config) (fs : FS) (image : UploadFile)
    (o : Oracle) (hct : image.content_type = "image/jpeg")
    (hmime : allowedMime (mimetypes_guess_type (uploadPath image)) = true)
    (hfail : groqCallFails o.groq) :
    analyze_image cfg (fs.write (uploadPath image) image.content) (uploadPath image) _prompt_
      o.groq = none ∧
    upload_image cfg fs image o =
      (.response 500 "Failed to analyze the image", fs.erase (uploadPath image),
       [.created (uploadPath image), .removed (uploadPath image)]) := by
  have hnone := analyze_image_none_of_fail cfg (fs.write (uploadPath image) image.content)
    (uploadPath image) _prompt_ o.groq hfail
  exact ⟨hnone, upload_image_analysis_fail cfg fs image o hct hmime (by rw [hnone]; rfl)⟩

/-- Witness for C5: the inference call times out on a valid upload. -/
theorem sai_C5_witness :
    analyze_image cfgEx (FS.empty.write (uploadPath imgGood) imgGood.content)
      (uploadPath imgGood) _prompt_ oNetFail.groq = none ∧
    upload_image cfgEx FS.empty imgGood oNetFail =
      (.response 500 "Failed to analyze the image", FS.empty.erase (uploadPath imgGood),
       [.created (uploadPath imgGood), .removed (uploadPath imgGood)]) :=
  sai_C5_analyzer_failure_maps_to_500 cfgEx FS.empty imgGood oNetFail rfl (by decide) trivial

/-- C6: if either Telegram send raises a transport error, the Notifier does
    not swallow it — its result carries exactly that exception — and the
    handler, although analysis already succeeded, removes the stored file and
    responds 500. -/
theorem sai_C6_notifier_error_propagates_and_500 (cfg : Config) (fs : FS) (image : UploadFile)
    (o : Oracle) (e : PyExc) (hct : image.content_type = "image/jpeg")
    (hmime : allowedMime (mimetypes_guess_type (uploadPath image)) = true)
    (htruthy : pyTruthy (analyze_image cfg (fs.write (uploadPath image) image.content)
      (uploadPath image) _prompt_ o.groq) = true)
    (hrace : o.concurrentRemoval = false)
    (htg : o.tg.photoResult = some e ∨ (o.tg.photoResult = none ∧ o.tg.messageResult = some e)) :
    (send_image_and_analysis_to_telegram cfg (fs.write (uploadPath image) image.content) o.now
      (uploadPath image)
      ((analyze_image cfg (fs.write (uploadPath image) image.content) (uploadPath image) _prompt_
        o.groq).getD "") o.tg).2 = some e ∧
    upload_image cfg fs image o =
      (.response 500 "Failed to send image to Telegram", fs.erase (uploadPath image),
       [.created (uploadPath image), .removed (uploadPath image)]) :=
  ⟨send_snd_of_fail cfg (fs.write (uploadPath image) image.content) o.now (uploadPath image)
    ((analyze_image cfg (fs.write (uploadPath image) image.content) (uploadPath image) _prompt_
      o.groq).getD "") o.tg image.content e
    (FS.read_write_self fs (uploadPath image) image.content) htg,
   upload_image_tg_fail cfg fs image o e hct hmime htruthy hrace htg⟩

/-- Witness for C6: the photo send raises a TelegramError on a run whose
    analysis succeeded. -/
theorem sai_C6_witness :
    (send_image_and_analysis_to_telegram cfgEx
      (FS.empty.write (uploadPath imgGood) imgGood.content) oTgFail.now (uploadPath imgGood)
      ((analyze_image cfgEx (FS.empty.write (uploadPath imgGood) imgGood.content)
        (uploadPath imgGood) _prompt_ oTgFail.groq).getD "") oTgFail.tg).2 =
      some (PyExc.telegramError "flood control") ∧
    upload_image cfgEx FS.empty imgGood oTgFail =
      (.response 500 "Failed to send image to Telegram", FS.empty.erase (uploadPath imgGood),
       [.created (uploadPath imgGood), .removed (uploadPath imgGood)]) :=
  sai_C6_notifier_error_propagates_and_500 cfgEx FS.empty imgGood oTgFail
    (PyExc.telegramError "flood control") rfl (by decide) (by decide) rfl (Or.inl rfl)
/-- C7: for a readable stored file, `analyze_image` issues exactly one
    request, whose shape is fixed: the configured URL, a 30-second timeout,
    bearer-token authorization, JSON content type, model
    llama-3.2-11b-vision-preview, temperature 0.1, max_tokens 1000, and one
    user message holding the fixed prompt text plus the image as the data URI
    data:image/jpeg;base64,(base64 of the stored bytes); and on HTTP 200 with a
    parseable body it returns the first choice's message content. -/
theorem sai_C7_single_fixed_request (cfg : Config) (fs : FS) (path prompt : String)
    (r : GroqResult) (c : Bytes) (hread : fs.read path = some c) :
    (analyze_image_run cfg fs path prompt r).1 = [buildGroqRequest cfg prompt c] ∧
    buildGroqRequest cfg prompt c =
      { url := cfg.GROQ_API_URL
        timeoutSeconds := 30
        body := .obj [("model", .str "llama-3.2-11b-vision-preview"),
                      ("messages", .arr [.obj [("role", .str "user"),
                        ("content", .arr
                          [.obj [("type", .str "text"), ("text", .str prompt)],
                           .obj [("type", .str "image_url"),
                                 ("image_url", .obj [("url", .str
                                   ("data:image/jpeg;base64," ++ b64encodeStr c))])]])]]),
                      ("temperature", .decimal 1 1),
                      ("max_tokens", .num 1000)]
        headers := [("Authorization", "Bearer " ++ cfg.GROQ_API_KEY),
                    ("Content-Type", "application/json")] } ∧
    (∀ (j : Json) (s : String), r = .httpResponse 200 (some j) → extractContent j = some s →
      analyze_image cfg fs path prompt r = some s) := by
  refine ⟨?_, rfl, ?_⟩
  · simp only [analyze_image_run, hread]
    cases r with
    | netError m => rfl
    | httpResponse status body =>
      by_cases h200 : status = 200
      · subst h200
        cases body with
        | none => rfl
        | some j => cases hext : extractContent j <;> simp [hext]
      · simp [h200]
  · intro j s hr hext
    subst hr
    simp [analyze_image, analyze_image_run, hread, hext]

/-- Witness for C7 at a concrete stored file and a 200 response. -/
theorem sai_C7_witness :
    (analyze_image_run cfgEx (FS.empty.write "./uploads/photo.jpg" imgGood.content)
      "./uploads/photo.jpg" _prompt_ (.httpResponse 200 (some goodBody))).1 =
      [buildGroqRequest cfgEx _prompt_ imgGood.content] ∧
    buildGroqRequest cfgEx _prompt_ imgGood.content =
      { url := cfgEx.GROQ_API_URL
        timeoutSeconds := 30
        body := .obj [("model", .str "llama-3.2-11b-vision-preview"),
                      ("messages", .arr [.obj [("role", .str "user"),
                        ("content", .arr
                          [.obj [("type", .str "text"), ("text", .str _prompt_)],
                           .obj [("type", .str "image_url"),
                                 ("image_url", .obj [("url", .str
                                   ("data:image/jpeg;base64," ++
                                     b64encodeStr imgGood.content))])]])]]),
                      ("temperature", .decimal 1 1),
                      ("max_tokens", .num 1000)]
        headers := [("Authorization", "Bearer " ++ cfgEx.GROQ_API_KEY),
                    ("Content-Type", "application/json")] } ∧
    (∀ (j : Json) (s : String),
      GroqResult.httpResponse 200 (some goodBody) = .httpResponse 200 (some j) →
      extractContent j = some s →
      analyze_image cfgEx (FS.empty.write "./uploads/photo.jpg" imgGood.content)
        "./uploads/photo.jpg" _prompt_ (.httpResponse 200 (some goodBody)) = some s) :=
  sai_C7_single_fixed_request cfgEx (FS.empty.write "./uploads/photo.jpg" imgGood.content)
    "./uploads/photo.jpg" _prompt_ (.httpResponse 200 (some goodBody)) imgGood.content rfl

/-- C8: on a successful delivery the Notifier sends exactly two messages, in
    order: first the stored photo captioned with the strftime-formatted
    call-time clock reading (second precision), then — and only when the photo
    send completed without raising — the analysis text as a separate plain
    message to the same chat; when the photo send raises, no text message is
    attempted. -/
theorem sai_C8_two_messages_in_order (cfg : Config) (fs : FS) (now : DateTime)
    (path analysis : String) (photo : Bytes) (hread : fs.read path = some photo) :
    (∀ o : TgOracle, o.photoResult = none → o.messageResult = none →
      send_image_and_analysis_to_telegram cfg fs now path analysis o =
        ([.sendPhoto cfg.TELEGRAM_CHAT_ID photo (strftime_YmdHMS now),
          .sendMessage cfg.TELEGRAM_CHAT_ID analysis], none)) ∧
    (∀ (o : TgOracle) (e : PyExc), o.photoResult = some e →
      send_image_and_analysis_to_telegram cfg fs now path analysis o =
        ([.sendPhoto cfg.TELEGRAM_CHAT_ID photo (strftime_YmdHMS now)], some e)) :=
  ⟨fun o hp hm => send_run_success cfg fs now path analysis o photo hread hp hm,
   fun o e hp => send_run_photo_fail cfg fs now path analysis o photo e hread hp⟩

/-- Witness for C8 at a concrete stored file, text and clock reading. -/
theorem sai_C8_witness :
    (∀ o : TgOracle, o.photoResult = none → o.messageResult = none →
      send_image_and_analysis_to_telegram cfgEx
        (FS.empty.write "./uploads/photo.jpg" imgGood.content) nowEx "./uploads/photo.jpg"
        "no sign of birds on the trees." o =
        ([.sendPhoto cfgEx.TELEGRAM_CHAT_ID imgGood.content (strftime_YmdHMS nowEx),
          .sendMessage cfgEx.TELEGRAM_CHAT_ID "no sign of birds on the trees."], none)) ∧
    (∀ (o : TgOracle) (e : PyExc), o.photoResult = some e →
      send_image_and_analysis_to_telegram cfgEx
        (FS.empty.write "./uploads/photo.jpg" imgGood.content) nowEx "./uploads/photo.jpg"
        "no sign of birds on the trees." o =
        ([.sendPhoto cfgEx.TELEGRAM_CHAT_ID imgGood.content (strftime_YmdHMS nowEx)], some e)) :=
  sai_C8_two_messages_in_order cfgEx (FS.empty.write "./uploads/photo.jpg" imgGood.content)
    nowEx "./uploads/photo.jpg" "no sign of birds on the trees." imgGood.content rfl
/-- C9: the storage filename is the final path component of the supplied name
    (`os.path.basename`, so a directory prefix joined with a slash is
    discarded, neutralizing traversal segments), the file event of every
    post-validation run starts with the creation of exactly
    UPLOAD_FOLDER/basename(filename), and a write to an existing path
    overwrites: afterwards the path holds the new bytes whatever was there. -/
theorem sai_C9_safe_filename_and_overwrite (cfg : Config) (fs : FS) (image : UploadFile)
    (o : Oracle) (hct : image.content_type = "image/jpeg") :
    (∃ evs, (upload_image cfg fs image o).2.2 =
      FsEvent.created (os_path_join UPLOAD_FOLDER (os_path_basename image.filename)) :: evs) ∧
    (∀ d f : String, os_path_basename (d ++ "/" ++ f) = os_path_basename f) ∧
    (∀ (fs' : FS) (p : String) (c : Bytes), (fs'.write p c).read p = some c) :=
  ⟨upload_events_head cfg fs image o hct,
   os_path_basename_append,
   FS.read_write_self⟩

/-- Witness for C9 at a filename carrying `../../` traversal segments. -/
theorem sai_C9_witness :
    (∃ evs, (upload_image cfgEx FS.empty traversalUpload oGood).2.2 =
      FsEvent.created (os_path_join UPLOAD_FOLDER
        (os_path_basename traversalUpload.filename)) :: evs) ∧
    (∀ d f : String, os_path_basename (d ++ "/" ++ f) = os_path_basename f) ∧
    (∀ (fs' : FS) (p : String) (c : Bytes), (fs'.write p c).read p = some c) :=
  sai_C9_safe_filename_and_overwrite cfgEx FS.empty traversalUpload oGood rfl

/-- C10: an inference call that returns HTTP 200 with a well-formed body whose
    first-choice message content is the empty string is treated exactly like
    an analysis failure (`if not analysis_result` is taken): the stored file
    is removed and the response is 500, never a 200, and the Notifier is never
    reached. -/
theorem sai_C10_empty_analysis_treated_as_failure (cfg : Config) (fs : FS) (image : UploadFile)
    (o : Oracle) (j : Json) (hct : image.content_type = "image/jpeg")
    (hmime : allowedMime (mimetypes_guess_type (uploadPath image)) = true)
    (hgroq : o.groq = .httpResponse 200 (some j))
    (hext : extractContent j = some "") :
    upload_image cfg fs image o =
      (.response 500 "Failed to analyze the image", fs.erase (uploadPath image),
       [.created (uploadPath image), .removed (uploadPath image)]) := by
  apply upload_image_analysis_fail cfg fs image o hct hmime
  have hsome : analyze_image cfg (fs.write (uploadPath image) image.content) (uploadPath image)
      _prompt_ o.groq = some "" := by
    simp [analyze_image, analyze_image_run, FS.read_write_self, hgroq, hext]
  rw [hsome]
  rfl

/-- Witness for C10: a 200 response whose extracted content is the empty
    string on an otherwise fully healthy run. -/
theorem sai_C10_witness :
    upload_image cfgEx FS.empty imgGood oEmptyAnswer =
      (.response 500 "Failed to analyze the image", FS.empty.erase (uploadPath imgGood),
       [.created (uploadPath imgGood), .removed (uploadPath imgGood)]) :=
  sai_C10_empty_analysis_treated_as_failure cfgEx FS.empty imgGood oEmptyAnswer emptyBody rfl
    (by decide) rfl rfl
